import Mathlib

/-!
Verification of the provider-adapter and error-normalization layer of the
Basis-Theory payment-orchestration SDK.

The Python sources are shallowly embedded:
* Python dicts / JSON bodies become the `JValue` inductive;
* the per-provider mapping tables (`STATUS_CODE_MAPPING`, `ERROR_CODE_MAPPING`
  of `providers/adyen.py` and `providers/checkout.py`) become association
  lists, and `dict.get(k, default)` becomes `tableLookup` + `Option.getD`;
* the request/response flow of `AdyenClient.transaction`,
  `CheckoutClient.transaction` and `RequestClient.request` becomes a pure
  function of the (oracle) HTTP response;
* the deep-merge override step of `orchestration_sdk/providers/adyen.py`
  (`deepmerge.always_merger`) becomes `deepMerge`.

Where a definition embeds code of the repository that is not under `src/`
(only referenced from it), its doc comment starts with `Modelled from the
spec:`.
-/

/-- JSON-like values standing for the Python dict / list / scalar structures
that flow through the SDK (payloads, response bodies, overrides). -/
inductive JValue where
  | str (s : String) : JValue
  | int (n : Int) : JValue
  | bool (b : Bool) : JValue
  | null : JValue
  | obj (fields : List (String × JValue)) : JValue
  | arr (elems : List JValue) : JValue

/-- First-match association-list lookup; the embedding of reading a key of a
Python dict (`d[k]` when present / `d.get(k)`). -/
def lookupKey : List (String × JValue) → String → Option JValue
  | [], _ => none
  | (k2, v) :: rest, k => if k2 = k then some v else lookupKey rest k

/-- Python `d.get(k, default)` on an embedded dict. -/
def jdictGet (fields : List (String × JValue)) (k : String) (dflt : JValue) : JValue :=
  (lookupKey fields k).getD dflt

/-- Generic first-match lookup for the fixed mapping tables
(`STATUS_CODE_MAPPING.get`, `ERROR_CODE_MAPPING.get`). -/
def tableLookup {α : Type} : List (String × α) → String → Option α
  | [], _ => none
  | (k2, v) :: rest, k => if k2 = k then some v else tableLookup rest k

/-- Python truthiness of an optional string (`if x:` where `x` is
`Optional[str]`): `None` and the empty string are falsy. -/
def truthy : Option String → Bool
  | none => false
  | some s => !s.isEmpty

/-- The embedding of Python `if x: d[k] = x` for an optional string field:
emits the key only when the value is truthy. -/
def optField (k : String) (v : Option String) : List (String × JValue) :=
  match v with
  | some s => if s.isEmpty then [] else [(k, JValue.str s)]
  | none => []

/-- Embeds `models.SourceType`. -/
inductive SourceType where
  | BASIS_THEORY_TOKEN
  | BASIS_THEORY_TOKEN_INTENT
  | PROCESSOR_TOKEN
deriving DecidableEq

/-- Embeds `models.RecurringType`. -/
inductive RecurringType where
  | ONE_TIME
  | CARD_ON_FILE
  | SUBSCRIPTION
  | UNSCHEDULED
deriving DecidableEq

/-- Embeds `models.TransactionStatusCode`. -/
inductive TransactionStatusCode where
  | AUTHORIZED
  | PENDING
  | CARD_VERIFIED
  | DECLINED
  | RETRY_SCHEDULED
  | CANCELLED
  | CHALLENGE_SHOPPER
  | RECEIVED
  | PARTIALLY_AUTHORIZED
deriving DecidableEq

/-- Embeds `models.ErrorCategory`.  `BASIS_THEORY_ERROR` is referenced by the
repository's acceptance tests (proxy-origin errors) though the stale
`models.py` snapshot under `src/` lists only the first five. -/
inductive ErrorCategory where
  | PROCESSING_ERROR
  | PAYMENT_METHOD_ERROR
  | FRAUD_DECLINE
  | AUTHENTICATION_ERROR
  | OTHER
  | BASIS_THEORY_ERROR
deriving DecidableEq

/-- Embeds `models.ErrorType`: the union of the members listed in
`payment_orchestration_sdk/models.py` and the members referenced by the
provider adapters and `utils/request_client.py` (the latter live in the
enriched `models.py` that is not under `src/`). -/
inductive ErrorType where
  | REFUSED
  | REFERRAL
  | ACQUIRER_ERROR
  | BLOCKED_CARD
  | EXPIRED_CARD
  | INVALID_AMOUNT
  | INVALID_CARD_NUMBER
  | ISSUER_UNAVAILABLE
  | PAYMENT_NOT_SUPPORTED
  | THREE_DS_ERROR
  | INSUFFICIENT_FUNDS
  | FRAUD
  | PAYMENT_CANCELLED
  | PAYMENT_CANCELLED_BY_CONSUMER
  | PIN_INVALID
  | INCORRECT_PAYMENT
  | CVC_INVALID
  | RESTRICTED_CARD
  | STOP_PAYMENT
  | OTHER
  | AVS_DECLINE
  | PIN_REQUIRED
  | BANK_ERROR
  | CONTACTLESS_FALLBACK
  | AUTHENTICATION_REQUIRED
  | AUTHENTICATION_FAILURE
  | PROCESSOR_BLOCKED
  | DUPLICATE_PAYMENT
  | CARD_LOST
  | PAYMENT_CAPTURE_INVALID
  | CARD_CARDHOLDER_INVALID
  | NETWORK_TRANSACTION_ID_INVALID
  | PROCESSOR_TOKEN_ERROR
  | INVALID_CARD
  | NOT_SUPPORTED
  | INSUFFICENT_FUNDS
  | INVALID_PIN
  | PIN_TRIES_EXCEEDED
  | INVALID_API_KEY
  | UNAUTHORIZED
  | INVALID_SOURCE_TOKEN
  | CONFIGURATION_ERROR
  | BT_UNAUTHENTICATED
  | BT_UNAUTHORIZED
  | BT_REQUEST_ERROR
  | BT_UNEXPECTED
deriving DecidableEq

/-- Modelled from the spec: the enriched `models.py` (imported by
`checkout.py` and `request_client.py` through `error.category`, but absent
from `src/`) attaches an `ErrorCategory` to each `ErrorType`.  The spec's
words pin only the unmapped default, `(OTHER, OTHER)`; for the `BT_*`
members the in-src acceptance tests assert `BASIS_THEORY_ERROR`
(`basistheory_test.py`), and for `INVALID_API_KEY` they assert `OTHER`
(`adyen_test.py`, `checkout_test.py`).  Every member the spec and tests
leave unpinned — `INVALID_API_KEY` / `UNAUTHORIZED` included — is sent to
`OTHER`; no theorem below depends on an unpinned value. -/
def ErrorType.category : ErrorType → ErrorCategory
  | .BT_UNAUTHENTICATED => .BASIS_THEORY_ERROR
  | .BT_UNAUTHORIZED => .BASIS_THEORY_ERROR
  | .BT_REQUEST_ERROR => .BASIS_THEORY_ERROR
  | .BT_UNEXPECTED => .BASIS_THEORY_ERROR
  | _ => .OTHER

/-- The `{"category": ..., "code": ...}` dict built from an `ErrorType`
(`CheckoutClient._get_error_code`, `RequestClient._transform_bt_error`). -/
structure ErrorCodeDict where
  category : ErrorCategory
  code : ErrorType
deriving DecidableEq

/-- Embeds `CheckoutClient._get_error_code`. -/
def checkoutGetErrorCode (e : ErrorType) : ErrorCodeDict :=
  { category := e.category, code := e }

/-- Embeds `providers/adyen.py` `STATUS_CODE_MAPPING` (Adyen resultCode → canonical
status). -/
def adyenStatusMapping : List (String × TransactionStatusCode) :=
  [("Authorised", .AUTHORIZED),
   ("Pending", .PENDING),
   ("Error", .DECLINED),
   ("Refused", .DECLINED),
   ("Cancelled", .CANCELLED),
   ("ChallengeShopper", .CHALLENGE_SHOPPER),
   ("Received", .RECEIVED),
   ("PartiallyAuthorised", .PARTIALLY_AUTHORIZED)]

/-- Embeds `AdyenClient._get_status_code`: table lookup defaulting to `DECLINED`. -/
def adyenGetStatusCode (adyen_result_code : String) : TransactionStatusCode :=
  (tableLookup adyenStatusMapping adyen_result_code).getD .DECLINED

/-- Embeds `providers/checkout.py` `STATUS_CODE_MAPPING`. -/
def checkoutStatusMapping : List (String × TransactionStatusCode) :=
  [("Authorized", .AUTHORIZED),
   ("Pending", .PENDING),
   ("Card Verified", .CARD_VERIFIED),
   ("Declined", .DECLINED),
   ("Retry Scheduled", .RETRY_SCHEDULED)]

/-- Embeds `CheckoutClient._get_status_code`: table lookup defaulting to `DECLINED`. -/
def checkoutGetStatusCode (checkout_status : String) : TransactionStatusCode :=
  (tableLookup checkoutStatusMapping checkout_status).getD .DECLINED

/-- Embeds `payment_orchestration_sdk/providers/adyen.py` `ERROR_CODE_MAPPING`
(Adyen refusal reason code → (ErrorType, ErrorCategory)). -/
def adyenErrorCodeMapping : List (String × ErrorType × ErrorCategory) :=
  [("2", .REFUSED, .PROCESSING_ERROR),
   ("3", .REFERRAL, .PROCESSING_ERROR),
   ("4", .ACQUIRER_ERROR, .OTHER),
   ("5", .BLOCKED_CARD, .PAYMENT_METHOD_ERROR),
   ("6", .EXPIRED_CARD, .PAYMENT_METHOD_ERROR),
   ("7", .INVALID_AMOUNT, .OTHER),
   ("8", .INVALID_CARD, .PAYMENT_METHOD_ERROR),
   ("9", .OTHER, .OTHER),
   ("10", .NOT_SUPPORTED, .PROCESSING_ERROR),
   ("11", .AUTHENTICATION_FAILURE, .PAYMENT_METHOD_ERROR),
   ("12", .INSUFFICENT_FUNDS, .PAYMENT_METHOD_ERROR),
   ("14", .FRAUD, .FRAUD_DECLINE),
   ("15", .PAYMENT_CANCELLED, .OTHER),
   ("16", .PAYMENT_CANCELLED_BY_CONSUMER, .PROCESSING_ERROR),
   ("17", .INVALID_PIN, .PAYMENT_METHOD_ERROR),
   ("18", .PIN_TRIES_EXCEEDED, .PAYMENT_METHOD_ERROR),
   ("19", .OTHER, .PAYMENT_METHOD_ERROR),
   ("20", .FRAUD, .FRAUD_DECLINE),
   ("21", .OTHER, .OTHER),
   ("22", .FRAUD, .FRAUD_DECLINE),
   ("23", .NOT_SUPPORTED, .PROCESSING_ERROR),
   ("24", .CVC_INVALID, .PAYMENT_METHOD_ERROR),
   ("25", .RESTRICTED_CARD, .PROCESSING_ERROR),
   ("26", .STOP_PAYMENT, .PROCESSING_ERROR),
   ("27", .OTHER, .OTHER),
   ("28", .INSUFFICENT_FUNDS, .PROCESSING_ERROR),
   ("29", .INSUFFICENT_FUNDS, .PROCESSING_ERROR),
   ("31", .FRAUD, .FRAUD_DECLINE),
   ("32", .AVS_DECLINE, .PROCESSING_ERROR),
   ("33", .PIN_REQUIRED, .PROCESSING_ERROR),
   ("34", .BANK_ERROR, .PROCESSING_ERROR),
   ("35", .BANK_ERROR, .PROCESSING_ERROR),
   ("36", .PIN_REQUIRED, .PROCESSING_ERROR),
   ("37", .CONTACTLESS_FALLBACK, .PROCESSING_ERROR),
   ("38", .AUTHENTICATION_REQUIRED, .PROCESSING_ERROR),
   ("39", .AUTHENTICATION_FAILURE, .AUTHENTICATION_ERROR),
   ("40", .OTHER, .OTHER),
   ("41", .PIN_REQUIRED, .PROCESSING_ERROR),
   ("42", .AUTHENTICATION_FAILURE, .AUTHENTICATION_ERROR),
   ("43", .PIN_REQUIRED, .PROCESSING_ERROR),
   ("44", .OTHER, .PROCESSING_ERROR),
   ("45", .OTHER, .PROCESSING_ERROR),
   ("46", .PROCESSOR_BLOCKED, .PROCESSING_ERROR)]

/-- The refusal-code lookup of `AdyenClient.transaction`:
`ERROR_CODE_MAPPING.get(refusal_code, (ErrorType.OTHER, ErrorCategory.OTHER))`. -/
def adyenMapRefusal (refusal_code : String) : ErrorType × ErrorCategory :=
  (tableLookup adyenErrorCodeMapping refusal_code).getD (.OTHER, .OTHER)

/-- Embeds `providers/checkout.py` `ERROR_CODE_MAPPING` (Checkout.com error code →
ErrorType). -/
def checkoutErrorCodeMapping : List (String × ErrorType) :=
  [("card_authorization_failed", .REFUSED),
   ("card_disabled", .BLOCKED_CARD),
   ("card_expired", .EXPIRED_CARD),
   ("card_expiry_month_invalid", .INVALID_CARD),
   ("card_expiry_month_required", .INVALID_CARD),
   ("card_expiry_year_invalid", .INVALID_CARD),
   ("card_expiry_year_required", .INVALID_CARD),
   ("expiry_date_format_invalid", .INVALID_CARD),
   ("card_not_found", .INVALID_CARD),
   ("card_number_invalid", .INVALID_CARD),
   ("card_number_required", .INVALID_CARD),
   ("issuer_network_unavailable", .OTHER),
   ("card_not_eligible_domestic_money_transfer", .NOT_SUPPORTED),
   ("card_not_eligible_cross_border_money_transfer", .NOT_SUPPORTED),
   ("card_not_eligible_domestic_non_money_transfer", .NOT_SUPPORTED),
   ("card_not_eligible_cross_border_non_money_transfer", .NOT_SUPPORTED),
   ("card_not_eligible_domestic_online_gambling", .NOT_SUPPORTED),
   ("card_not_eligible_cross_border_online_gambling", .NOT_SUPPORTED),
   ("3ds_not_enabled_for_card", .AUTHENTICATION_FAILURE),
   ("3ds_not_supported", .AUTHENTICATION_FAILURE),
   ("amount_exceeds_balance", .INSUFFICENT_FUNDS),
   ("amount_limit_exceeded", .INSUFFICENT_FUNDS),
   ("payment_expired", .PAYMENT_CANCELLED),
   ("cvv_invalid", .CVC_INVALID),
   ("processing_error", .OTHER),
   ("velocity_amount_limit_exceeded", .INSUFFICENT_FUNDS),
   ("velocity_count_limit_exceeded", .INSUFFICENT_FUNDS),
   ("address_invalid", .AVS_DECLINE),
   ("city_invalid", .AVS_DECLINE),
   ("country_address_invalid", .AVS_DECLINE),
   ("country_invalid", .AVS_DECLINE),
   ("country_phone_code_invalid", .AVS_DECLINE),
   ("country_phone_code_length_invalid", .AVS_DECLINE),
   ("phone_number_invalid", .AVS_DECLINE),
   ("phone_number_length_invalid", .AVS_DECLINE),
   ("zip_invalid", .AVS_DECLINE),
   ("action_failure_limit_exceeded", .PROCESSOR_BLOCKED),
   ("token_expired", .OTHER),
   ("token_in_use", .OTHER),
   ("token_invalid", .OTHER),
   ("token_used", .OTHER),
   ("capture_value_greater_than_authorized", .OTHER),
   ("capture_value_greater_than_remaining_authorized", .OTHER),
   ("card_holder_invalid", .OTHER),
   ("previous_payment_id_invalid", .OTHER),
   ("processing_channel_id_required", .CONFIGURATION_ERROR),
   ("success_url_required", .CONFIGURATION_ERROR),
   ("source_token_invalid", .INVALID_SOURCE_TOKEN)]

/-- The per-code lookup of `CheckoutClient._transform_error_response`:
`ERROR_CODE_MAPPING.get(error_code, ErrorType.OTHER)`. -/
def checkoutMapErrorCode (error_code : String) : ErrorType :=
  (tableLookup checkoutErrorCodeMapping error_code).getD .OTHER

/-- Embeds `models.Amount` (the `currency = "USD"` default is applied by
`create_transaction_request`). -/
structure Amount where
  value : Int
  currency : String
deriving DecidableEq

/-- Embeds `models.Source`. -/
structure Source where
  type : SourceType
  id : String
  store_with_provider : Bool
  holderName : Option String
deriving DecidableEq

/-- Embeds `models.Address`. -/
structure Address where
  address_line1 : Option String
  address_line2 : Option String
  city : Option String
  state : Option String
  zip : Option String
  country : Option String
deriving DecidableEq

/-- Embeds `models.Customer`. -/
structure Customer where
  reference : Option String
  first_name : Option String
  last_name : Option String
  email : Option String
  address : Option Address
deriving DecidableEq

/-- Embeds `models.StatementDescription`. -/
structure StatementDescription where
  name : Option String
  city : Option String
deriving DecidableEq

/-- Embeds `models.ThreeDS`. -/
structure ThreeDS where
  eci : Option String
  authentication_value : Option String
  xid : Option String
  version : Option String
deriving DecidableEq

/-- Embeds `models.TransactionRequest` (the `payment_orchestration_sdk` snapshot:
no metadata / override fields). -/
structure TransactionRequest where
  amount : Amount
  source : Source
  reference : Option String
  merchant_initiated : Bool
  type : Option RecurringType
  customer : Option Customer
  statement_description : Option StatementDescription
  three_ds : Option ThreeDS
deriving DecidableEq

/-- The subset of an HTTP response observed by this layer: the status code,
the `BT-PROXY-DESTINATION-STATUS` header, the JSON body (`none` when
`response.json()` would raise) and the raw text (used by
`RequestClient._transform_bt_error` as a fallback).  Bodies that parse to
JSON non-objects are outside the model. -/
structure HttpResponse where
  status : Nat
  destStatus : Option String
  body : Option (List (String × JValue))
  textBody : String

/-- Embeds `RequestClient._is_bt_error`: the header is absent, or differs from the
textual form of the actual status code. -/
def isBtError (r : HttpResponse) : Bool :=
  match r.destStatus with
  | none => true
  | some s => decide (toString r.status ≠ s)

/-- The error dict shape returned by the adapters
(`{"error_codes": ..., "provider_errors": ..., "full_provider_response": ...}`). -/
structure ErrResp where
  error_codes : List ErrorCodeDict
  provider_errors : JValue
  full_provider_response : JValue

/-- Embeds `RequestClient._transform_bt_error`: proxy-specific error table keyed on
the outer HTTP status, plus the `proxy_error.errors` extraction. -/
def transformBtError (r : HttpResponse) : ErrResp :=
  let error_type : ErrorType :=
    if r.status = 401 then .BT_UNAUTHENTICATED
    else if r.status = 403 then .BT_UNAUTHORIZED
    else if r.status < 500 then .BT_REQUEST_ERROR
    else .BT_UNEXPECTED
  let response_data : List (String × JValue) :=
    match r.body with
    | some fields => fields
    | none => [("message", .str (if r.textBody.isEmpty then "Unknown error" else r.textBody))]
  let errors_items : List (String × JValue) :=
    match jdictGet response_data "proxy_error" (.obj []) with
    | .obj pe =>
        match jdictGet pe "errors" (.obj []) with
        | .obj items => items
        | _ => []
    | _ => []
  { error_codes := [{ category := error_type.category, code := error_type }],
    provider_errors :=
      .arr (errors_items.map (fun kv => .obj [("error", .str kv.1), ("details", kv.2)])),
    full_provider_response := .obj response_data }

/-- The exception raised by `RequestClient.request` on a non-ok response:
`requests.exceptions.HTTPError`, optionally carrying the
`bt_error_response` attribute. -/
structure HTTPErrorExc where
  response : HttpResponse
  btErrorResponse : Option ErrResp

/-- Embeds `requests.Response.ok` / `raise_for_status`: a status in 400..599 is an
error. -/
def responseIsError (r : HttpResponse) : Bool :=
  decide (400 ≤ r.status) && decide (r.status < 600)

/-- The error-classification tail of `RequestClient.request` (lines 76-88):
a non-ok response raises `HTTPError`, with `bt_error_response` attached
exactly when `_is_bt_error` holds; an ok response is returned unchanged. -/
def requestClientResult (r : HttpResponse) : Except HTTPErrorExc HttpResponse :=
  if responseIsError r then
    .error { response := r,
             btErrorResponse := if isBtError r then some (transformBtError r) else none }
  else
    .ok r

/-- Setting a key of a Python dict of string headers: replaces the first
occurrence in place, else appends. -/
def setHeader : List (String × String) → String → String → List (String × String)
  | [], k, v => [(k, v)]
  | (k2, v2) :: rest, k, v =>
      if k2 = k then (k2, v) :: rest else (k2, v2) :: setHeader rest k v

/-- The fixed Basis Theory proxy endpoint used by `RequestClient.request`. -/
def btProxyUrl : String := "https://api.basistheory.com/proxy"

/-- The routing head of `RequestClient.request` (lines 54-66): when proxying,
inject `BT-API-KEY`, add `BT-PROXY-URL` if absent, and redirect the call to
the fixed proxy endpoint; otherwise call the given URL with the headers as
given. -/
def requestPrepare (btApiKey : String) (url : String) (headers : List (String × String))
    (useBtProxy : Bool) : String × List (String × String) :=
  if useBtProxy then
    let h1 := setHeader headers "BT-API-KEY" btApiKey
    let h2 := if (tableLookup h1 "BT-PROXY-URL").isSome then h1
              else setHeader h1 "BT-PROXY-URL" url
    (btProxyUrl, h2)
  else
    (url, headers)

/-- Embeds `AdyenClient.__init__`: sandbox/live base URL selection. -/
def adyenBaseUrl (is_test : Bool) : String :=
  if is_test then "https://checkout-test.adyen.com/v71" else "https://checkout-live.adyen.com/v71"

/-- Embeds `CheckoutClient.__init__`: sandbox/live base URL selection. -/
def checkoutBaseUrl (is_test : Bool) : String :=
  if is_test then "https://api.sandbox.checkout.com" else "https://api.checkout.com"

/-- The dispatch performed by `AdyenClient.transaction`:
`request_client.request(url=f"{base_url}/payments", ..., use_bt_proxy=request.source.type != SourceType.PROCESSOR_TOKEN)`,
observed as the effective (url, headers) pair. -/
def adyenDispatch (api_key : String) (is_test : Bool) (bt_api_key : String)
    (request : TransactionRequest) : String × List (String × String) :=
  requestPrepare bt_api_key (adyenBaseUrl is_test ++ "/payments")
    [("X-API-Key", api_key), ("Content-Type", "application/json")]
    (decide (request.source.type ≠ SourceType.PROCESSOR_TOKEN))

/-- The dispatch performed by `CheckoutClient.transaction`. -/
def checkoutDispatch (api_key : String) (is_test : Bool) (bt_api_key : String)
    (request : TransactionRequest) : String × List (String × String) :=
  requestPrepare bt_api_key (checkoutBaseUrl is_test ++ "/payments")
    [("Authorization", "Bearer " ++ api_key), ("Content-Type", "application/json")]
    (decide (request.source.type ≠ SourceType.PROCESSOR_TOKEN))

/-- The Basis Theory deferred-expansion expression for a card field
(`f"{{{{ {token_prefix}: {request.source.id} | json: '$.data.<field>'}}}}"`). -/
def btExpression (tokenKind : String) (tokenId : String) (path : String) : String :=
  "\x7b\x7b " ++ tokenKind ++ ": " ++ tokenId ++ " | json: \x27$.data." ++ path ++ "\x27\x7d\x7d"

/-- The `token` / `token_intent` expression keyword chosen from the source
type (`token_prefix` in both adapters). -/
def btTokenKind (t : SourceType) : String :=
  if t = SourceType.BASIS_THEORY_TOKEN_INTENT then "token_intent" else "token"

/-- The `paymentMethod` dict built by
`AdyenClient._transform_to_adyen_payload` (lines 130-149): stored-instrument
reference for processor tokens, deferred-expansion card fields for Basis
Theory tokens / token intents, `holderName` only when truthy. -/
def adyenPaymentMethodFields (s : Source) : List (String × JValue) :=
  match s.type with
  | SourceType.PROCESSOR_TOKEN =>
      [("type", .str "scheme"), ("storedPaymentMethodId", .str s.id)]
      ++ optField "holderName" s.holderName
  | _ =>
      [("type", .str "scheme"),
       ("number", .str (btExpression (btTokenKind s.type) s.id "number")),
       ("expiryMonth", .str (btExpression (btTokenKind s.type) s.id "expiration_month")),
       ("expiryYear", .str (btExpression (btTokenKind s.type) s.id "expiration_year")),
       ("cvc", .str (btExpression (btTokenKind s.type) s.id "cvc"))]
      ++ optField "holderName" s.holderName

/-- The customer-derived fields of the Adyen payload (lines 151-190):
`shopperReference`, `shopperName`, `shopperEmail` and the `billingAddress`
block guarded by `any([...])`, with the `"ZZ"` country fallback. -/
def adyenCustomerFields (c : Customer) : List (String × JValue) :=
  optField "shopperReference" c.reference
  ++ (if truthy c.first_name || truthy c.last_name then
        [("shopperName", .obj (optField "firstName" c.first_name
                               ++ optField "lastName" c.last_name))]
      else [])
  ++ optField "shopperEmail" c.email
  ++ (match c.address with
      | some a =>
          if truthy a.address_line1 || truthy a.city || truthy a.state
             || truthy a.zip || truthy a.country then
            [("billingAddress", .obj (optField "street" a.address_line1
              ++ optField "city" a.city
              ++ optField "stateOrProvince" a.state
              ++ optField "postalCode" a.zip
              ++ [("country", .str (match a.country with
                   | some s => if s.isEmpty then "ZZ" else s
                   | none => "ZZ"))]))]
          else []
      | none => [])

/-- Embeds `payment_orchestration_sdk/providers/adyen.py` `RECURRING_TYPE_MAPPING`:
`ONE_TIME` maps to `None` (emitted as an explicit null value). -/
def adyenRecurringValue : RecurringType → JValue
  | .ONE_TIME => .null
  | .CARD_ON_FILE => .str "CardOnFile"
  | .SUBSCRIPTION => .str "Subscription"
  | .UNSCHEDULED => .str "UnscheduledCardOnFile"

/-- The 3DS sub-fields of the Adyen payload (lines 200-210). -/
def adyenThreeDSFields (t : ThreeDS) : List (String × JValue) :=
  optField "eci" t.eci
  ++ optField "authenticationValue" t.authentication_value
  ++ optField "xid" t.xid
  ++ optField "threeDSVersion" t.version

/-- Embeds `AdyenClient._transform_to_adyen_payload`
(`payment_orchestration_sdk` snapshot, lines 110-212).  Note that a present
`three_ds` object always emits the `additionalData.threeDSecure` dict, even
when every sub-field is absent. -/
def adyenTransformPayload (merchant_account : String) (request : TransactionRequest) :
    List (String × JValue) :=
  [("amount", .obj [("value", .int request.amount.value),
                    ("currency", .str request.amount.currency)]),
   ("merchantAccount", .str merchant_account),
   ("shopperInteraction", .str (if request.merchant_initiated then "ContAuth" else "Ecommerce")),
   ("storePaymentMethod", .bool request.source.store_with_provider)]
  ++ optField "reference" request.reference
  ++ (match request.type with
      | some t => [("recurringProcessingModel", adyenRecurringValue t)]
      | none => [])
  ++ [("paymentMethod", .obj (adyenPaymentMethodFields request.source))]
  ++ (match request.customer with
      | some c => adyenCustomerFields c
      | none => [])
  ++ (match request.statement_description with
      | some sd => optField "shopperStatement" sd.name
      | none => [])
  ++ (match request.three_ds with
      | some t => [("additionalData", .obj [("threeDSecure", .obj (adyenThreeDSFields t))])]
      | none => [])

/-- Embeds `providers/checkout.py` `RECURRING_TYPE_MAPPING.get(request.type)`:
`payment_type` is always emitted, as null when the request has no recurring
type. -/
def checkoutPaymentTypeValue : Option RecurringType → JValue
  | none => .null
  | some .ONE_TIME => .str "Regular"
  | some .CARD_ON_FILE => .str "CardOnFile"
  | some .SUBSCRIPTION => .str "Recurring"
  | some .UNSCHEDULED => .str "Unscheduled"

/-- An optional string emitted as an explicit value (`"reference":
request.reference` in the Checkout payload: `None` becomes null). -/
def jOptStr : Option String → JValue
  | some s => .str s
  | none => .null

/-- The `source` dict of the Checkout payload before the billing-address /
billing-descriptor mutations (lines 119-135). -/
def checkoutSourceBaseFields (s : Source) : List (String × JValue) :=
  match s.type with
  | SourceType.PROCESSOR_TOKEN =>
      [("type", .str "id"), ("id", .str s.id)]
  | _ =>
      [("type", .str "card"),
       ("number", .str (btExpression (btTokenKind s.type) s.id "number")),
       ("expiry_month", .str (btExpression (btTokenKind s.type) s.id "expiration_month")),
       ("expiry_year", .str (btExpression (btTokenKind s.type) s.id "expiration_year")),
       ("cvv", .str (btExpression (btTokenKind s.type) s.id "cvc")),
       ("store_for_future_use", .bool s.store_with_provider)]

/-- The `billing_address` dict written into the Checkout `source`
(lines 152-165). -/
def checkoutBillingAddressFields (a : Address) : List (String × JValue) :=
  optField "address_line1" a.address_line1
  ++ optField "address_line2" a.address_line2
  ++ optField "city" a.city
  ++ optField "state" a.state
  ++ optField "zip" a.zip
  ++ optField "country" a.country

/-- The `customer` dict of the Checkout payload (lines 138-149): always
created when `request.customer` is present, `name` joining the truthy name
parts with a space. -/
def checkoutCustomerFields (c : Customer) : List (String × JValue) :=
  (if truthy c.first_name || truthy c.last_name then
     [("name", .str (String.intercalate " "
        ((match c.first_name with | some s => if s.isEmpty then [] else [s] | none => [])
         ++ (match c.last_name with | some s => if s.isEmpty then [] else [s] | none => []))))]
   else [])
  ++ optField "email" c.email

/-- The 3DS sub-fields of the Checkout payload (lines 178-185). -/
def checkoutThreeDSFields (t : ThreeDS) : List (String × JValue) :=
  optField "eci" t.eci
  ++ optField "cryptogram" t.authentication_value
  ++ optField "xid" t.xid
  ++ optField "version" t.version

/-- Embeds `CheckoutClient._transform_to_checkout_payload` (lines 107-190).  A
present `customer` always emits the `customer` dict, a present
`statement_description` always emits `source.billing_descriptor`, and a
present `three_ds` always emits the `3ds` dict, even when every sub-field is
absent. -/
def checkoutTransformPayload (processing_channel : String) (request : TransactionRequest) :
    List (String × JValue) :=
  [("amount", .int request.amount.value),
   ("currency", .str request.amount.currency),
   ("merchant_initiated", .bool request.merchant_initiated),
   ("payment_type", checkoutPaymentTypeValue request.type),
   ("processing_channel_id", .str processing_channel),
   ("reference", jOptStr request.reference)]
  ++ [("source", .obj (checkoutSourceBaseFields request.source
        ++ (match request.customer with
            | some c =>
                match c.address with
                | some a => [("billing_address", .obj (checkoutBillingAddressFields a))]
                | none => []
            | none => [])
        ++ (match request.statement_description with
            | some sd => [("billing_descriptor", .obj (optField "name" sd.name
                            ++ optField "city" sd.city))]
            | none => [])))]
  ++ (match request.customer with
      | some c => [("customer", .obj (checkoutCustomerFields c))]
      | none => [])
  ++ (match request.three_ds with
      | some t => [("3ds", .obj (checkoutThreeDSFields t))]
      | none => [])

/-- Python truthiness of an embedded JSON value. -/
def jtruthy : JValue → Bool
  | .str s => !s.isEmpty
  | .int n => decide (n ≠ 0)
  | .bool b => b
  | .null => false
  | .obj fields => !fields.isEmpty
  | .arr elems => !elems.isEmpty

/-- A Python exception arising from dict access / dict-shaped assumptions:
`KeyError(k)` or a `TypeError`-like failure. -/
inductive PyFail where
  | keyError (k : String)
  | typeError (msg : String)
deriving DecidableEq

/-- Embeds `d[k]` on an embedded dict: raises `KeyError` when the key is absent. -/
def jdictIndex (fields : List (String × JValue)) (k : String) : Except PyFail JValue :=
  match lookupKey fields k with
  | some v => .ok v
  | none => .error (.keyError k)

/-- Embeds `d.get(k, {})` followed by attribute access on the result: the default is
an empty dict, and a present non-dict value raises. -/
def jdictGetObj (fields : List (String × JValue)) (k : String) :
    Except PyFail (List (String × JValue)) :=
  match lookupKey fields k with
  | some (.obj inner) => .ok inner
  | some _ => .error (.typeError ("not a dict: " ++ k))
  | none => .ok []

/-- A mapping-table key taken from a JSON value, as Python `dict.get` sees
it: strings hit the table, other hashable scalars miss it (yielding the
default), unhashable dicts/lists raise `TypeError`. -/
def hashableKey (v : JValue) : Except PyFail (Option String) :=
  match v with
  | .str s => .ok (some s)
  | .obj _ => .error (.typeError "unhashable type")
  | .arr _ => .error (.typeError "unhashable type")
  | _ => .ok none

/-- The transformed success-response dict built by
`AdyenClient._transform_adyen_response` / `CheckoutClient._transform_checkout_response`
(the wall-clock `created_at` field is outside the model). -/
structure TxResponse where
  id : JValue
  reference : JValue
  amount_value : JValue
  amount_currency : JValue
  status_code : TransactionStatusCode
  provider_code : JValue
  source_type : SourceType
  source_id : String
  provisioned_id : Option JValue
  network_transaction_id : JValue
  full_provider_response : List (String × JValue)

/-- The outcome of a `transaction(...)` call: a transformed success dict, a
returned error dict, or a raised exception (`ValidationError`,
`ProcessingError`, or an uncaught Python exception). -/
inductive TxResult where
  | success (resp : TxResponse)
  | errorResponse (e : ErrResp)
  | validationError (msg : String)
  | processingError (msg : String)
  | uncaught (f : PyFail)

/-- Embeds `AdyenClient._transform_adyen_response` (lines 214-240): required keys
raise `KeyError` when absent; `provisioned` prefers
`paymentMethod.storedPaymentMethodId` and falls back to the deprecated
`additionalData."recurring.recurringDetailReference"`. -/
def adyenTransformResponse (response_data : List (String × JValue))
    (request : TransactionRequest) : Except PyFail TxResponse := do
  let psp ← jdictIndex response_data "pspReference"
  let mref ← jdictIndex response_data "merchantReference"
  let amountV ← jdictIndex response_data "amount"
  let amountFields ←
    match amountV with
    | .obj f => Except.ok f
    | _ => Except.error (.typeError "amount is not a dict")
  let av ← jdictIndex amountFields "value"
  let ac ← jdictIndex amountFields "currency"
  let rc ← jdictIndex response_data "resultCode"
  let rcKey ← hashableKey rc
  let statusCode :=
    match rcKey with
    | some s => adyenGetStatusCode s
    | none => TransactionStatusCode.DECLINED
  let pm ← jdictGetObj response_data "paymentMethod"
  let ad ← jdictGetObj response_data "additionalData"
  let pmSid := lookupKey pm "storedPaymentMethodId"
  let adRef := lookupKey ad "recurring.recurringDetailReference"
  let provisioned :=
    if jtruthy (pmSid.getD .null) || jtruthy (adRef.getD .null) then
      some (if jtruthy (pmSid.getD (.str "")) then pmSid.getD (.str "")
            else adRef.getD (.str ""))
    else none
  Except.ok
    { id := psp, reference := mref, amount_value := av, amount_currency := ac,
      status_code := statusCode, provider_code := rc,
      source_type := request.source.type, source_id := request.source.id,
      provisioned_id := provisioned,
      network_transaction_id := (lookupKey ad "networkTxReference").getD .null,
      full_provider_response := response_data }

/-- Embeds `response_data.get("resultCode") in ["Refused", "Error", "Cancelled"]`. -/
def adyenIsErrorResult (v : Option JValue) : Bool :=
  match v with
  | some (.str s) => s = "Refused" || s = "Error" || s = "Cancelled"
  | _ => false

/-- The post-dispatch part of `AdyenClient.transaction`
(`payment_orchestration_sdk` snapshot, lines 259-320), as a function of the
HTTP response the dispatch produced.  The `except HTTPError` handler
(lines 290-315) maps the bare HTTP status and never consults the
`bt_error_response` attribute attached by `RequestClient`; exceptions inside
the surrounding `try` are re-raised by the trailing handlers as
`ValidationError` (for `KeyError`) or `ProcessingError` (anything else). -/
def adyenTransactionResult (request : TransactionRequest) (r : HttpResponse) : TxResult :=
  match requestClientResult r with
  | .error e =>
      match e.response.body with
      | none => .processingError "Error processing transaction: response.json()"
      | some response_data =>
          let p : ErrorCategory × ErrorType :=
            if e.response.status = 401 then (.AUTHENTICATION_ERROR, .INVALID_API_KEY)
            else if e.response.status = 403 then (.AUTHENTICATION_ERROR, .UNAUTHORIZED)
            else (.PROCESSING_ERROR, .OTHER)
          .errorResponse
            { error_codes := [{ category := p.1, code := p.2 }],
              provider_errors := .arr [jdictGet response_data "message" (.str "")],
              full_provider_response := .obj response_data }
  | .ok resp =>
      match resp.body with
      | none => .processingError "Error processing transaction: response.json()"
      | some response_data =>
          if adyenIsErrorResult (lookupKey response_data "resultCode") then
            match hashableKey (jdictGet response_data "refusalReasonCode" (.str "")) with
            | .error _ => .processingError "Error processing transaction: unhashable type"
            | .ok k =>
                let p : ErrorType × ErrorCategory :=
                  match k with
                  | some s => adyenMapRefusal s
                  | none => (.OTHER, .OTHER)
                .errorResponse
                  { error_codes := [{ category := p.2, code := p.1 }],
                    provider_errors := .arr [jdictGet response_data "refusalReason" (.str "")],
                    full_provider_response := .obj response_data }
          else
            match adyenTransformResponse response_data request with
            | .ok s => .success s
            | .error (.keyError k) =>
                .validationError ("Missing required field: \x27" ++ k ++ "\x27")
            | .error (.typeError m) =>
                .processingError ("Error processing transaction: " ++ m)

/-- Embeds `CheckoutClient._transform_checkout_response` (lines 192-216). -/
def checkoutTransformResponse (response_data : List (String × JValue))
    (request : TransactionRequest) : Except PyFail TxResponse := do
  let rid ← jdictIndex response_data "id"
  let mref ← jdictIndex response_data "reference"
  let av ← jdictIndex response_data "amount"
  let ac ← jdictIndex response_data "currency"
  let st ← jdictIndex response_data "status"
  let stKey ← hashableKey st
  let statusCode :=
    match stKey with
    | some s => checkoutGetStatusCode s
    | none => TransactionStatusCode.DECLINED
  let src ← jdictGetObj response_data "source"
  let srcId := lookupKey src "id"
  let processing ← jdictGetObj response_data "processing"
  Except.ok
    { id := rid, reference := mref, amount_value := av, amount_currency := ac,
      status_code := statusCode, provider_code := st,
      source_type := request.source.type, source_id := request.source.id,
      provisioned_id := if jtruthy (srcId.getD .null) then some (srcId.getD .null) else none,
      network_transaction_id := (lookupKey processing "acquirer_transaction_id").getD .null,
      full_provider_response := response_data }

/-- One Checkout error code mapped through the table
(`ERROR_CODE_MAPPING.get(error_code, ErrorType.OTHER)` on a value taken from
the response's `error_codes` list). -/
def checkoutMapErrorValue (v : JValue) : Except PyFail ErrorType :=
  match hashableKey v with
  | .ok (some s) => .ok (checkoutMapErrorCode s)
  | .ok none => .ok .OTHER
  | .error f => .error f

/-- All Checkout error codes of a response mapped in order. -/
def checkoutMapErrorValues : List JValue → Except PyFail (List ErrorCodeDict)
  | [] => .ok []
  | v :: rest => do
      let e ← checkoutMapErrorValue v
      let es ← checkoutMapErrorValues rest
      return checkoutGetErrorCode e :: es

/-- Embeds `CheckoutClient._transform_error_response` (lines 224-249): 401/403 map
to the fixed `INVALID_API_KEY` / `UNAUTHORIZED` codes; otherwise the body's
`error_codes` are mapped through the provider table, defaulting to a single
`(OTHER, OTHER)` code when none result; `error_data` shapes whose
`error_codes` value is a present non-list are outside the model (a Python
iteration/`TypeError` edge). -/
def checkoutTransformError (r : HttpResponse)
    (error_data : Option (List (String × JValue))) : Except PyFail ErrResp := do
  let codes ←
    if r.status = 401 then
      Except.ok [checkoutGetErrorCode .INVALID_API_KEY]
    else if r.status = 403 then
      Except.ok [checkoutGetErrorCode .UNAUTHORIZED]
    else
      match error_data with
      | some ed =>
          match jdictGet ed "error_codes" (.arr []) with
          | .arr items =>
              match checkoutMapErrorValues items with
              | .ok mapped =>
                  Except.ok (if mapped.isEmpty then [checkoutGetErrorCode .OTHER] else mapped)
              | .error f => Except.error f
          | _ => Except.error (.typeError "error_codes is not a list")
      | none => Except.ok [checkoutGetErrorCode .OTHER]
  Except.ok
    { error_codes := codes,
      provider_errors :=
        match error_data with
        | some ed => jdictGet ed "error_codes" (.arr [])
        | none => .arr [],
      full_provider_response :=
        match error_data with
        | some ed => .obj ed
        | none => .null }

/-- The post-dispatch part of `CheckoutClient.transaction` (lines 266-288):
an `HTTPError` carrying `bt_error_response` is returned as-is (the
`hasattr` check of lines 277-278); other HTTP errors go through
`_transform_error_response` with the JSON body when it parses; exceptions on
the success path are uncaught. -/
def checkoutTransactionResult (request : TransactionRequest) (r : HttpResponse) : TxResult :=
  match requestClientResult r with
  | .error e =>
      match e.btErrorResponse with
      | some bt => .errorResponse bt
      | none =>
          match checkoutTransformError e.response e.response.body with
          | .ok er => .errorResponse er
          | .error f => .uncaught f
  | .ok resp =>
      match resp.body with
      | none => .uncaught (.typeError "JSONDecodeError")
      | some response_data =>
          match checkoutTransformResponse response_data request with
          | .ok s => .success s
          | .error f => .uncaught f

/-- Outcome of a required-field validation routine: passed, raised a
`ValidationError` with the given message, or raised some other Python
exception. -/
inductive PyCheck where
  | passed
  | failed (msg : String)
  | raised (f : PyFail)
deriving DecidableEq

/-- Embeds `AdyenClient._validate_required_fields` (lines 104-108):
`amount.value` and `source.type` / `source.id` must be present.  A present
non-dict `amount` / `source` is modelled as a raised `TypeError` (Python's
membership test on such values either raises or, for strings, does a
substring test; those shapes are outside the claims). -/
def adyenValidateRequiredFields (data : List (String × JValue)) : PyCheck :=
  match lookupKey data "amount" with
  | none => .failed "amount.value is required"
  | some (.obj a) =>
      if (lookupKey a "value").isNone then .failed "amount.value is required"
      else
        match lookupKey data "source" with
        | none => .failed "source.type and source.id are required"
        | some (.obj s) =>
            if (lookupKey s "type").isNone || (lookupKey s "id").isNone then
              .failed "source.type and source.id are required"
            else .passed
        | some _ => .raised (.typeError "argument of type is not iterable")
  | some _ => .raised (.typeError "argument of type is not iterable")

/-- Modelled from the spec: `validate_required_fields` (imported by
`checkout.py` from `utils.model_utils` but absent from the `src/` snapshot
of that module).  Per spec section 4.1 the required fields are
`amount.value`, `source.type` and `source.id`, and validation fails fast
with a `ValidationError` naming the missing field. -/
def validateRequiredFieldsSpec (data : List (String × JValue)) : PyCheck :=
  match lookupKey data "amount" with
  | none => .failed "amount.value is required"
  | some (.obj a) =>
      if (lookupKey a "value").isNone then .failed "amount.value is required"
      else
        match lookupKey data "source" with
        | none => .failed "source.type is required"
        | some (.obj s) =>
            if (lookupKey s "type").isNone then .failed "source.type is required"
            else if (lookupKey s "id").isNone then .failed "source.id is required"
            else .passed
        | some _ => .raised (.typeError "argument of type is not iterable")
  | some _ => .raised (.typeError "argument of type is not iterable")

/-- An optional string field read with `d.get(k)`: absent and `None` give
`none`.  Non-string values are outside the typed model. -/
def jreadOptStr (fields : List (String × JValue)) (k : String) :
    Except PyFail (Option String) :=
  match lookupKey fields k with
  | none => .ok none
  | some .null => .ok none
  | some (.str s) => .ok (some s)
  | some _ => .error (.typeError ("non-string field: " ++ k))

/-- A boolean field read with `d.get(k, default)`.  Non-boolean values are
outside the typed model. -/
def jreadBoolD (fields : List (String × JValue)) (k : String) (dflt : Bool) :
    Except PyFail Bool :=
  match lookupKey fields k with
  | none => .ok dflt
  | some (.bool b) => .ok b
  | some _ => .error (.typeError ("non-boolean field: " ++ k))

/-- Embeds `SourceType(value)`: the enum constructor raises `ValueError` on an
unknown value (note the inconsistent `basistheory_token_intent` spelling in
`models.py`). -/
def parseSourceType (v : JValue) : Except PyFail SourceType :=
  match v with
  | .str "basis_theory_token" => .ok .BASIS_THEORY_TOKEN
  | .str "basistheory_token_intent" => .ok .BASIS_THEORY_TOKEN_INTENT
  | .str "processor_token" => .ok .PROCESSOR_TOKEN
  | _ => .error (.typeError "ValueError: not a valid SourceType")

/-- Embeds `RecurringType(value)`. -/
def parseRecurringType (v : JValue) : Except PyFail RecurringType :=
  match v with
  | .str "ONE_TIME" => .ok .ONE_TIME
  | .str "CARD_ON_FILE" => .ok .CARD_ON_FILE
  | .str "SUBSCRIPTION" => .ok .SUBSCRIPTION
  | .str "UNSCHEDULED" => .ok .UNSCHEDULED
  | _ => .error (.typeError "ValueError: not a valid RecurringType")

/-- Embeds `_create_address` / `Address(**data)`: falsy data gives no address;
keyword expansion raises `TypeError` on a key outside the dataclass
fields. -/
def createAddress (v : Option JValue) : Except PyFail (Option Address) :=
  match v with
  | none => .ok none
  | some av =>
      if !jtruthy av then .ok none
      else
        match av with
        | .obj a =>
            if a.all (fun kv => kv.1 = "address_line1" || kv.1 = "address_line2"
                || kv.1 = "city" || kv.1 = "state" || kv.1 = "zip" || kv.1 = "country") then do
              let l1 ← jreadOptStr a "address_line1"
              let l2 ← jreadOptStr a "address_line2"
              let city ← jreadOptStr a "city"
              let st ← jreadOptStr a "state"
              let zip ← jreadOptStr a "zip"
              let country ← jreadOptStr a "country"
              Except.ok (some { address_line1 := l1, address_line2 := l2, city := city,
                                state := st, zip := zip, country := country })
            else .error (.typeError "unexpected keyword argument")
        | _ => .error (.typeError "not a dict")

/-- Embeds `_create_customer`: falsy data gives no customer. -/
def createCustomer (v : Option JValue) : Except PyFail (Option Customer) :=
  match v with
  | none => .ok none
  | some cv =>
      if !jtruthy cv then .ok none
      else
        match cv with
        | .obj c => do
            let reference ← jreadOptStr c "reference"
            let fn ← jreadOptStr c "first_name"
            let ln ← jreadOptStr c "last_name"
            let email ← jreadOptStr c "email"
            let addr ← createAddress (lookupKey c "address")
            Except.ok (some { reference := reference, first_name := fn, last_name := ln,
                              email := email, address := addr })
        | _ => .error (.typeError "not a dict")

/-- Embeds `StatementDescription(**data['statement_description'])`. -/
def createStatementDescription (v : JValue) : Except PyFail StatementDescription :=
  match v with
  | .obj sd =>
      if sd.all (fun kv => kv.1 = "name" || kv.1 = "city") then do
        let name ← jreadOptStr sd "name"
        let city ← jreadOptStr sd "city"
        Except.ok { name := name, city := city }
      else .error (.typeError "unexpected keyword argument")
  | _ => .error (.typeError "not a mapping")

/-- Embeds `_create_three_ds`: falsy data gives no 3DS object; keys are
lowercased before keyword expansion. -/
def createThreeDS (v : Option JValue) : Except PyFail (Option ThreeDS) :=
  match v with
  | none => .ok none
  | some tv =>
      if !jtruthy tv then .ok none
      else
        match tv with
        | .obj t0 =>
            let t := t0.map (fun kv => (kv.1.toLower, kv.2))
            if t.all (fun kv => kv.1 = "eci" || kv.1 = "authentication_value"
                || kv.1 = "xid" || kv.1 = "version") then do
              let eci ← jreadOptStr t "eci"
              let av ← jreadOptStr t "authentication_value"
              let xid ← jreadOptStr t "xid"
              let version ← jreadOptStr t "version"
              Except.ok (some { eci := eci, authentication_value := av, xid := xid,
                                version := version })
            else .error (.typeError "unexpected keyword argument")
        | _ => .error (.typeError "not a dict")

/-- Embeds `utils/model_utils.py` `create_transaction_request`: builds the
`TransactionRequest` model from the raw dict.  Raw dicts are assumed
duplicate-key-free (Python dicts cannot repeat keys); values with types the
dataclasses do not expect are modelled as raised `TypeError`s. -/
def createTransactionRequest (data : List (String × JValue)) :
    Except PyFail TransactionRequest := do
  let amountV ← jdictIndex data "amount"
  let amountFields ←
    match amountV with
    | .obj f => Except.ok f
    | _ => Except.error (.typeError "amount is not a dict")
  let av ← jdictIndex amountFields "value"
  let value ←
    match av with
    | .int n => Except.ok n
    | _ => Except.error (.typeError "non-integer amount.value")
  let currency ←
    match lookupKey amountFields "currency" with
    | none => Except.ok "USD"
    | some (.str s) => Except.ok s
    | some _ => Except.error (.typeError "non-string currency")
  let sourceV ← jdictIndex data "source"
  let sourceFields ←
    match sourceV with
    | .obj f => Except.ok f
    | _ => Except.error (.typeError "source is not a dict")
  let stV ← jdictIndex sourceFields "type"
  let st ← parseSourceType stV
  let sidV ← jdictIndex sourceFields "id"
  let sid ←
    match sidV with
    | .str s => Except.ok s
    | _ => Except.error (.typeError "non-string source.id")
  let swp ← jreadBoolD sourceFields "store_with_provider" false
  let holder ← jreadOptStr sourceFields "holderName"
  let reference ← jreadOptStr data "reference"
  let mi ← jreadBoolD data "merchant_initiated" false
  let rt ←
    match lookupKey data "type" with
    | none => Except.ok none
    | some v => (parseRecurringType v).map some
  let customer ←
    match lookupKey data "customer" with
    | none => Except.ok none
    | some v => createCustomer (some v)
  let sd ←
    match lookupKey data "statement_description" with
    | none => Except.ok none
    | some v => (createStatementDescription v).map some
  let tds ←
    match lookupKey data "3ds" with
    | none => Except.ok none
    | some v => createThreeDS (some v)
  Except.ok
    { amount := { value := value, currency := currency },
      source := { type := st, id := sid, store_with_provider := swp, holderName := holder },
      reference := reference, merchant_initiated := mi, type := rt,
      customer := customer, statement_description := sd, three_ds := tds }

/-- Embeds `AdyenClient.transaction` from the raw request dict: validation and
model construction inside the adapter's `try`, so a raised
`ValidationError` is re-wrapped by the trailing `except Exception` handler
into a `ProcessingError`, and a `KeyError` into a `ValidationError`. -/
def adyenTransactionFromRaw (request_data : List (String × JValue)) (r : HttpResponse) :
    TxResult :=
  match adyenValidateRequiredFields request_data with
  | .failed msg => .processingError ("Error processing transaction: " ++ msg)
  | .raised (.keyError k) => .validationError ("Missing required field: \x27" ++ k ++ "\x27")
  | .raised (.typeError m) => .processingError ("Error processing transaction: " ++ m)
  | .passed =>
      match createTransactionRequest request_data with
      | .error (.keyError k) => .validationError ("Missing required field: \x27" ++ k ++ "\x27")
      | .error (.typeError m) => .processingError ("Error processing transaction: " ++ m)
      | .ok request => adyenTransactionResult request r

/-- Embeds `CheckoutClient.transaction` from the raw request dict: validation runs
before any `try`, so its `ValidationError` propagates unchanged, and model
construction errors propagate as uncaught exceptions. -/
def checkoutTransactionFromRaw (request_data : List (String × JValue)) (r : HttpResponse) :
    TxResult :=
  match validateRequiredFieldsSpec request_data with
  | .failed msg => .validationError msg
  | .raised f => .uncaught f
  | .passed =>
      match createTransactionRequest request_data with
      | .error f => .uncaught f
      | .ok request => checkoutTransactionResult request r

/-- Modelled from the spec: the `orchestration_sdk` snapshot of
`TransactionRequest` (its `models.py` is not under `src/`; the fields are
those read by `orchestration_sdk/providers/adyen.py` and spec section 3):
the `payment_orchestration_sdk` fields plus the free-form `metadata` map and
the `override_provider_properties` escape hatch. -/
structure OrchTransactionRequest where
  amount : Amount
  source : Source
  reference : Option String
  merchant_initiated : Bool
  type : Option RecurringType
  customer : Option Customer
  statement_description : Option StatementDescription
  three_ds : Option ThreeDS
  metadata : Option (List (String × JValue))
  override_provider_properties : Option (List (String × JValue))

/-- Embeds `orchestration_sdk/providers/adyen.py` `RECURRING_TYPE_MAPPING.get`
combined with the `if recurring_type:` guard (lines 126-129): `ONE_TIME`
maps to `None` and is therefore omitted. -/
def orchAdyenRecurringValue : RecurringType → Option String
  | .ONE_TIME => none
  | .CARD_ON_FILE => some "CardOnFile"
  | .SUBSCRIPTION => some "Subscription"
  | .UNSCHEDULED => some "UnscheduledCardOnFile"

/-- The customer-derived fields of the `orchestration_sdk` Adyen payload
(lines 152-192): as the `payment_orchestration_sdk` version but with no
`"ZZ"` country fallback. -/
def orchAdyenCustomerFields (c : Customer) : List (String × JValue) :=
  optField "shopperReference" c.reference
  ++ (if truthy c.first_name || truthy c.last_name then
        [("shopperName", .obj (optField "firstName" c.first_name
                               ++ optField "lastName" c.last_name))]
      else [])
  ++ optField "shopperEmail" c.email
  ++ (match c.address with
      | some a =>
          if truthy a.address_line1 || truthy a.city || truthy a.state
             || truthy a.zip || truthy a.country then
            [("billingAddress", .obj (optField "street" a.address_line1
              ++ optField "city" a.city
              ++ optField "stateOrProvince" a.state
              ++ optField "postalCode" a.zip
              ++ optField "country" a.country))]
          else []
      | none => [])

/-- The structurally-mapped part of
`orchestration_sdk AdyenClient._transform_to_adyen_payload` (lines 106-215),
before the override merge.  The `paymentMethod` dict is built exactly as in
the `payment_orchestration_sdk` snapshot (`adyenPaymentMethodFields`); the
3DS block is emitted only when at least one sub-field is present
(`if three_ds_data:` guard, lines 214-215). -/
def orchAdyenBasePayload (merchant_account : String) (request : OrchTransactionRequest) :
    List (String × JValue) :=
  [("amount", .obj [("value", .int request.amount.value),
                    ("currency", .str request.amount.currency)]),
   ("merchantAccount", .str merchant_account),
   ("shopperInteraction", .str (if request.merchant_initiated then "ContAuth" else "Ecommerce")),
   ("storePaymentMethod", .bool request.source.store_with_provider)]
  ++ (match request.metadata with
      | some m => if m.isEmpty then [] else [("metadata", .obj m)]
      | none => [])
  ++ optField "reference" request.reference
  ++ (match request.type with
      | some t =>
          match orchAdyenRecurringValue t with
          | some s => [("recurringProcessingModel", .str s)]
          | none => []
      | none => [])
  ++ [("paymentMethod", .obj (adyenPaymentMethodFields request.source))]
  ++ (match request.customer with
      | some c => orchAdyenCustomerFields c
      | none => [])
  ++ (match request.statement_description with
      | some sd => optField "shopperStatement" sd.name
      | none => [])
  ++ (match request.three_ds with
      | some t =>
          if (adyenThreeDSFields t).isEmpty then []
          else [("additionalData", .obj [("threeDSecure", .obj (adyenThreeDSFields t))])]
      | none => [])

mutual
/-- The `deepmerge.always_merger.merge(base, nxt)` strategy used by
`orchestration_sdk/providers/adyen.py` line 219: dicts merge recursively
per key, lists append, and any other combination is overridden by the
incoming (`nxt`) value. -/
def deepMerge : JValue → JValue → JValue
  | .obj a, .obj b => .obj (mergeFields a b)
  | .arr a, .arr b => .arr (a ++ b)
  | _, b => b

/-- Folds the incoming dict's entries into the base dict in order. -/
def mergeFields : List (String × JValue) → List (String × JValue) → List (String × JValue)
  | a, [] => a
  | a, (k, v) :: rest => mergeFields (mergeEntry a k v) rest

/-- Merges one incoming entry into the base dict: an existing key keeps its
position and receives the recursively merged value, a new key is appended. -/
def mergeEntry : List (String × JValue) → String → JValue → List (String × JValue)
  | [], k, v => [(k, v)]
  | (k2, v2) :: rest, k, v =>
      if k2 = k then (k2, deepMerge v2 v) :: rest
      else (k2, v2) :: mergeEntry rest k v
end

/-- The full `orchestration_sdk AdyenClient._transform_to_adyen_payload`:
the structurally-mapped payload, deep-merged with
`request.override_provider_properties` as the final step when that map is
truthy (lines 217-219). -/
def orchAdyenTransformPayload (merchant_account : String)
    (request : OrchTransactionRequest) : JValue :=
  match request.override_provider_properties with
  | some o =>
      if o.isEmpty then .obj (orchAdyenBasePayload merchant_account request)
      else deepMerge (.obj (orchAdyenBasePayload merchant_account request)) (.obj o)
  | none => .obj (orchAdyenBasePayload merchant_account request)

/-- A leaf value: neither a dict nor a list (the shapes the merge strategies
recurse into or append). -/
def isLeaf : JValue → Bool
  | .obj _ => false
  | .arr _ => false
  | _ => true

/-- Looks a path of keys up inside nested dicts. -/
def getPath : JValue → List String → Option JValue
  | v, [] => some v
  | .obj fields, k :: ks =>
      match lookupKey fields k with
      | some v => getPath v ks
      | none => none
  | _, _ :: _ => none

/-- How often a key occurs in an association list. -/
def countKey : List (String × JValue) → String → Nat
  | [], _ => 0
  | (k2, _) :: rest, k => (if k2 = k then 1 else 0) + countKey rest k

mutual
/-- Every dict node reachable through dict nesting has pairwise-distinct
keys: true of every value Python dicts can denote.  (Dicts nested inside
lists are not constrained; `getPath` never descends into lists.) -/
def noDupKeys : JValue → Bool
  | .obj fields => noDupFields fields
  | _ => true

/-- Key-distinctness plus recursion into the values of an association
list. -/
def noDupFields : List (String × JValue) → Bool
  | [] => true
  | (k, v) :: rest =>
      decide (countKey rest k = 0) && noDupKeys v && noDupFields rest
end

/-- A minimal valid request: required fields only, processor token. -/
def sampleRequest : TransactionRequest :=
  { amount := { value := 100, currency := "USD" },
    source := { type := .PROCESSOR_TOKEN, id := "tok_123",
                store_with_provider := false, holderName := none },
    reference := none, merchant_initiated := false, type := none,
    customer := none, statement_description := none, three_ds := none }

/-- The minimal request with a Basis Theory token source. -/
def sampleBtRequest : TransactionRequest :=
  { sampleRequest with
    source := { type := .BASIS_THEORY_TOKEN, id := "btok_1",
                store_with_provider := false, holderName := none } }

/-- The minimal request with a `ThreeDS` object whose four fields are all
absent (reachable from a raw dict such as `{"3ds": {"eci": None}}`). -/
def sampleRequest3DS : TransactionRequest :=
  { sampleRequest with
    three_ds := some { eci := none, authentication_value := none, xid := none,
                       version := none } }

/-- An override map patching the derived `amount.value`. -/
def sampleOverride : List (String × JValue) :=
  [("amount", .obj [("value", .int 500)])]

/-- A minimal `orchestration_sdk` request carrying `sampleOverride`. -/
def sampleOrchRequest : OrchTransactionRequest :=
  { amount := { value := 100, currency := "USD" },
    source := { type := .PROCESSOR_TOKEN, id := "tok_123",
                store_with_provider := false, holderName := none },
    reference := none, merchant_initiated := false, type := none,
    customer := none, statement_description := none, three_ds := none,
    metadata := none, override_provider_properties := some sampleOverride }

/-- A minimal `orchestration_sdk` request with an all-absent `ThreeDS`
object and no override. -/
def sampleOrch3DS : OrchTransactionRequest :=
  { sampleOrchRequest with
    three_ds := some { eci := none, authentication_value := none, xid := none,
                       version := none },
    override_provider_properties := none }

/-- A bare 401 with no `BT-PROXY-DESTINATION-STATUS` header: a proxy-origin
rejection. -/
def resp401 : HttpResponse :=
  { status := 401, destStatus := none, body := some [], textBody := "" }

/-- A 301 response with no destination-status header: not 2xx, but not an
error for `requests.Response.ok` either. -/
def resp301 : HttpResponse :=
  { status := 301, destStatus := none, body := some [], textBody := "" }

/-- A direct (unproxied) 422 decline body with one Checkout error code. -/
def resp422 : HttpResponse :=
  { status := 422, destStatus := none,
    body := some [("error_codes", .arr [.str "card_expired"])], textBody := "" }

/-- A 401 relayed from the processor (destination-status header matches). -/
def resp401Processor : HttpResponse :=
  { status := 401, destStatus := some "401", body := some [], textBody := "" }

/-- A 403 relayed from the processor. -/
def resp403Processor : HttpResponse :=
  { status := 403, destStatus := some "403", body := some [], textBody := "" }

/-- A successful Adyen authorization body. -/
def adyenOkBody : List (String × JValue) :=
  [("pspReference", .str "p1"), ("merchantReference", .str "r1"),
   ("amount", .obj [("value", .int 100), ("currency", .str "USD")]),
   ("resultCode", .str "Authorised")]

/-- A 200 response carrying `adyenOkBody`. -/
def adyenOkResponse : HttpResponse :=
  { status := 200, destStatus := some "200", body := some adyenOkBody, textBody := "" }

/-- An HTTP-200 Adyen body with `resultCode = "Refused"` and refusal code
`"6"`. -/
def adyenRefusedBody : List (String × JValue) :=
  [("resultCode", .str "Refused"), ("refusalReason", .str "Expired Card"),
   ("refusalReasonCode", .str "6")]

/-- A 200 response carrying `adyenRefusedBody`. -/
def adyenRefusedResponse : HttpResponse :=
  { status := 200, destStatus := some "200", body := some adyenRefusedBody, textBody := "" }
/-- Claim C1. For every provider and provider error code, the error
transformation maps a code present in that provider's fixed table to exactly
the pair the table lists (for Checkout.com, whose table lists only the
`ErrorType`, the `code` component of the built error dict), maps any code not
in the table to `(OTHER, OTHER)`, and is a total function (never raises); in
particular Adyen refusal code "6" maps to
`(PAYMENT_METHOD_ERROR, EXPIRED_CARD)`. -/
theorem claim_C1 :
    (∀ p ∈ adyenErrorCodeMapping, adyenMapRefusal p.1 = p.2)
    ∧ (∀ c, tableLookup adyenErrorCodeMapping c = none →
        adyenMapRefusal c = (ErrorType.OTHER, ErrorCategory.OTHER))
    ∧ (∀ p ∈ checkoutErrorCodeMapping,
        (checkoutGetErrorCode (checkoutMapErrorCode p.1)).code = p.2)
    ∧ (∀ c, tableLookup checkoutErrorCodeMapping c = none →
        checkoutGetErrorCode (checkoutMapErrorCode c) =
          { category := ErrorCategory.OTHER, code := ErrorType.OTHER })
    ∧ adyenMapRefusal "6" = (ErrorType.EXPIRED_CARD, ErrorCategory.PAYMENT_METHOD_ERROR) := by
  refine ⟨by decide, ?_, by decide, ?_, by decide⟩
  · intro c h
    simp [adyenMapRefusal, h]
  · intro c h
    simp [checkoutMapErrorCode, checkoutGetErrorCode, ErrorType.category, h]

/-- Witness for C1: concrete mapped and unmapped codes for both providers. -/
theorem claim_C1_witness :
    (("6", ErrorType.EXPIRED_CARD, ErrorCategory.PAYMENT_METHOD_ERROR) ∈ adyenErrorCodeMapping
      ∧ adyenMapRefusal "6" = (ErrorType.EXPIRED_CARD, ErrorCategory.PAYMENT_METHOD_ERROR))
    ∧ (tableLookup adyenErrorCodeMapping "999" = none
      ∧ adyenMapRefusal "999" = (ErrorType.OTHER, ErrorCategory.OTHER))
    ∧ (("card_expired", ErrorType.EXPIRED_CARD) ∈ checkoutErrorCodeMapping
      ∧ (checkoutGetErrorCode (checkoutMapErrorCode "card_expired")).code = ErrorType.EXPIRED_CARD)
    ∧ (tableLookup checkoutErrorCodeMapping "no_such_code" = none
      ∧ checkoutGetErrorCode (checkoutMapErrorCode "no_such_code") =
          { category := ErrorCategory.OTHER, code := ErrorType.OTHER }) := by
  refine ⟨⟨by decide, claim_C1.1 ("6", ErrorType.EXPIRED_CARD, ErrorCategory.PAYMENT_METHOD_ERROR) (by decide)⟩,
          ⟨by decide, claim_C1.2.1 "999" (by decide)⟩,
          ⟨by decide, claim_C1.2.2.1 ("card_expired", ErrorType.EXPIRED_CARD) (by decide)⟩,
          ⟨by decide, claim_C1.2.2.2.1 "no_such_code" (by decide)⟩⟩

/-- Claim C5. For every provider status string in a provider's fixed table the
status mapping returns the canonical status the table lists, and for every
status string not in the table it returns `DECLINED`. -/
theorem claim_C5 :
    (∀ p ∈ adyenStatusMapping, adyenGetStatusCode p.1 = p.2)
    ∧ (∀ s, tableLookup adyenStatusMapping s = none →
        adyenGetStatusCode s = TransactionStatusCode.DECLINED)
    ∧ (∀ p ∈ checkoutStatusMapping, checkoutGetStatusCode p.1 = p.2)
    ∧ (∀ s, tableLookup checkoutStatusMapping s = none →
        checkoutGetStatusCode s = TransactionStatusCode.DECLINED) := by
  refine ⟨by decide, ?_, by decide, ?_⟩
  · intro s h
    simp [adyenGetStatusCode, h]
  · intro s h
    simp [checkoutGetStatusCode, h]

/-- Witness for C5: a mapped and an unmapped status for each provider. -/
theorem claim_C5_witness :
    (("Authorised", TransactionStatusCode.AUTHORIZED) ∈ adyenStatusMapping
      ∧ adyenGetStatusCode "Authorised" = TransactionStatusCode.AUTHORIZED)
    ∧ (tableLookup adyenStatusMapping "SomethingNew" = none
      ∧ adyenGetStatusCode "SomethingNew" = TransactionStatusCode.DECLINED)
    ∧ (("Card Verified", TransactionStatusCode.CARD_VERIFIED) ∈ checkoutStatusMapping
      ∧ checkoutGetStatusCode "Card Verified" = TransactionStatusCode.CARD_VERIFIED)
    ∧ (tableLookup checkoutStatusMapping "SomethingNew" = none
      ∧ checkoutGetStatusCode "SomethingNew" = TransactionStatusCode.DECLINED) := by
  refine ⟨⟨by decide, claim_C5.1 ("Authorised", TransactionStatusCode.AUTHORIZED) (by decide)⟩,
          ⟨by decide, claim_C5.2.1 "SomethingNew" (by decide)⟩,
          ⟨by decide, claim_C5.2.2.1 ("Card Verified", TransactionStatusCode.CARD_VERIFIED) (by decide)⟩,
          ⟨by decide, claim_C5.2.2.2 "SomethingNew" (by decide)⟩⟩


theorem countKey_zero_lookup (l : List (String × JValue)) (k : String)
    (h : countKey l k = 0) : lookupKey l k = none := by
  induction l with
  | nil => rfl
  | cons hd tl ih =>
      obtain ⟨k2, v2⟩ := hd
      by_cases hk : k2 = k
      · simp [countKey, hk] at h
      · simp [countKey, hk] at h
        simp [lookupKey, hk, ih h]

theorem lookupKey_mergeEntry_self (a : List (String × JValue)) (k : String) (v : JValue) :
    lookupKey (mergeEntry a k v) k =
      some ((lookupKey a k).elim v (fun b2 => deepMerge b2 v)) := by
  induction a with
  | nil => simp [mergeEntry, lookupKey]
  | cons hd tl ih =>
      obtain ⟨k2, v2⟩ := hd
      by_cases hk : k2 = k
      · simp [mergeEntry, hk, lookupKey]
      · simp [mergeEntry, hk, lookupKey, ih]

theorem lookupKey_mergeEntry_other (a : List (String × JValue)) (k : String) (v : JValue)
    (k3 : String) (h : k3 ≠ k) :
    lookupKey (mergeEntry a k v) k3 = lookupKey a k3 := by
  induction a with
  | nil =>
      simp [mergeEntry, lookupKey]
      intro hh
      exact absurd hh.symm h
  | cons hd tl ih =>
      obtain ⟨k2, v2⟩ := hd
      by_cases hk : k2 = k
      · subst hk
        have : k2 ≠ k3 := fun hh => h hh.symm
        simp [mergeEntry, lookupKey, this]
      · by_cases hk3 : k2 = k3
        · subst hk3
          simp [mergeEntry, lookupKey, hk]
        · simp [mergeEntry, hk, lookupKey, hk3, ih]

theorem lookupKey_mergeFields (b a : List (String × JValue)) (k : String)
    (h : countKey b k ≤ 1) :
    lookupKey (mergeFields a b) k =
      match lookupKey b k with
      | some bv => some ((lookupKey a k).elim bv (fun av => deepMerge av bv))
      | none => lookupKey a k := by
  induction b generalizing a with
  | nil => simp [mergeFields, lookupKey]
  | cons hd tl ih =>
      obtain ⟨k2, v2⟩ := hd
      by_cases hk : k2 = k
      · subst hk
        have h0 : countKey tl k2 = 0 := by
          simp [countKey] at h
          omega
        have htl : countKey tl k2 ≤ 1 := by omega
        simp only [mergeFields]
        rw [ih (mergeEntry a k2 v2) htl]
        simp [lookupKey, countKey_zero_lookup tl k2 h0, lookupKey_mergeEntry_self]
      · have hc : countKey tl k ≤ 1 := by
          simp [countKey, hk] at h
          exact h
        simp only [mergeFields]
        rw [ih (mergeEntry a k2 v2) hc]
        have hne : k ≠ k2 := fun hh => hk hh.symm
        simp [lookupKey, hk, lookupKey_mergeEntry_other a k2 v2 k hne]

theorem noDupFields_countKey (l : List (String × JValue)) (k : String)
    (h : noDupFields l = true) : countKey l k ≤ 1 := by
  induction l with
  | nil => simp [countKey]
  | cons hd tl ih =>
      obtain ⟨k2, v2⟩ := hd
      simp [noDupFields] at h
      by_cases hk : k2 = k
      · subst hk
        simp [countKey, h.1.1]
      · simp [countKey, hk]
        exact ih h.2

theorem noDupFields_lookup (l : List (String × JValue)) (k : String) (v : JValue)
    (h : noDupFields l = true) (hl : lookupKey l k = some v) : noDupKeys v = true := by
  induction l with
  | nil => simp [lookupKey] at hl
  | cons hd tl ih =>
      obtain ⟨k2, v2⟩ := hd
      simp [noDupFields] at h
      by_cases hk : k2 = k
      · simp [lookupKey, hk] at hl
        exact hl ▸ h.1.2
      · simp [lookupKey, hk] at hl
        exact ih h.2 hl

theorem deepMerge_leaf (b v : JValue) (h : isLeaf v = true) : deepMerge b v = v := by
  cases b <;> cases v <;> simp_all [deepMerge, isLeaf]

theorem deepMerge_preserves_leaf : ∀ (path : List String) (o b v : JValue),
    noDupKeys o = true → getPath o path = some v → isLeaf v = true →
    getPath (deepMerge b o) path = some v := by
  intro path
  induction path with
  | nil =>
      intro o b v _ hp hleaf
      simp [getPath] at hp
      subst hp
      simp [getPath, deepMerge_leaf b o hleaf]
  | cons k ks ih =>
      intro o b v hnd hp hleaf
      cases o with
      | str s => simp [getPath] at hp
      | int n => simp [getPath] at hp
      | bool b2 => simp [getPath] at hp
      | null => simp [getPath] at hp
      | arr es => simp [getPath] at hp
      | obj oF =>
          cases hl : lookupKey oF k with
          | none => simp [getPath, hl] at hp
          | some o1 =>
              simp only [getPath, hl] at hp
              have hnd1 : noDupKeys o1 = true :=
                noDupFields_lookup oF k o1 (by simpa [noDupKeys] using hnd) hl
              have hcnt : countKey oF k ≤ 1 :=
                noDupFields_countKey oF k (by simpa [noDupKeys] using hnd)
              cases b with
              | obj bF =>
                  have hm := lookupKey_mergeFields oF bF k hcnt
                  rw [hl] at hm
                  cases hbl : lookupKey bF k with
                  | none =>
                      rw [hbl] at hm
                      simpa [deepMerge, getPath, hm] using hp
                  | some b1 =>
                      rw [hbl] at hm
                      simp [deepMerge, getPath, hm]
                      exact ih o1 b1 v hnd1 hp hleaf
              | str s => simpa [deepMerge, getPath, hl] using hp
              | int n => simpa [deepMerge, getPath, hl] using hp
              | bool b2 => simpa [deepMerge, getPath, hl] using hp
              | null => simpa [deepMerge, getPath, hl] using hp
              | arr es => simpa [deepMerge, getPath, hl] using hp

/-- Claim C4. For every request carrying a (truthy) override map, the built
Adyen payload equals the structurally-mapped payload deep-merged with the
override as the final step, and every leaf value of the override — at any
path of keys, `amount` included — is the value found in the built payload at
that path, whatever the derived payload held there. -/
theorem claim_C4 (merchant_account : String) (request : OrchTransactionRequest)
    (o : List (String × JValue)) (path : List String) (v : JValue)
    (hov : request.override_provider_properties = some o)
    (hne : o ≠ [])
    (hnd : noDupKeys (.obj o) = true)
    (hpath : getPath (.obj o) path = some v)
    (hleaf : isLeaf v = true) :
    orchAdyenTransformPayload merchant_account request =
      deepMerge (.obj (orchAdyenBasePayload merchant_account request)) (.obj o)
    ∧ getPath (orchAdyenTransformPayload merchant_account request) path = some v := by
  have hempty : o.isEmpty = false := by
    cases o with
    | nil => exact absurd rfl hne
    | cons hd tl => rfl
  have heq : orchAdyenTransformPayload merchant_account request =
      deepMerge (.obj (orchAdyenBasePayload merchant_account request)) (.obj o) := by
    simp [orchAdyenTransformPayload, hov, hempty]
  refine ⟨heq, ?_⟩
  rw [heq]
  exact deepMerge_preserves_leaf path (.obj o)
    (.obj (orchAdyenBasePayload merchant_account request)) v hnd hpath hleaf

/-- Witness for C4: overriding `amount.value` with 500 wins over the derived
value 100. -/
theorem claim_C4_witness :
    (sampleOrchRequest.override_provider_properties = some sampleOverride
      ∧ sampleOverride ≠ []
      ∧ noDupKeys (.obj sampleOverride) = true
      ∧ getPath (.obj sampleOverride) ["amount", "value"] = some (.int 500)
      ∧ isLeaf (JValue.int 500) = true)
    ∧ getPath (orchAdyenTransformPayload "merch" sampleOrchRequest) ["amount", "value"]
        = some (.int 500)
    ∧ getPath (.obj (orchAdyenBasePayload "merch" sampleOrchRequest)) ["amount", "value"]
        = some (.int 100) := by
  refine ⟨⟨rfl, by simp [sampleOverride], ?_, rfl, rfl⟩, ?_, ?_⟩
  · simp [noDupKeys, noDupFields, sampleOverride, countKey]
  · exact (claim_C4 "merch" sampleOrchRequest sampleOverride ["amount", "value"]
      (.int 500) rfl (by simp [sampleOverride]) (by simp [noDupKeys, noDupFields, sampleOverride, countKey]) rfl rfl).2
  · rfl

/-- Claim C3. Both adapters dispatch through the tokenization proxy exactly
when the source is not a processor token: the effective URL is the fixed
proxy endpoint iff `source.type ≠ PROCESSOR_TOKEN`, and otherwise it is the
processor's own `/payments` endpoint. -/
theorem claim_C3 (api_key : String) (is_test : Bool) (bt_api_key : String)
    (request : TransactionRequest) :
    ((adyenDispatch api_key is_test bt_api_key request).1 = btProxyUrl
      ↔ request.source.type ≠ SourceType.PROCESSOR_TOKEN)
    ∧ ((checkoutDispatch api_key is_test bt_api_key request).1 = btProxyUrl
      ↔ request.source.type ≠ SourceType.PROCESSOR_TOKEN)
    ∧ (request.source.type = SourceType.PROCESSOR_TOKEN →
        (adyenDispatch api_key is_test bt_api_key request).1 = adyenBaseUrl is_test ++ "/payments"
        ∧ (checkoutDispatch api_key is_test bt_api_key request).1
            = checkoutBaseUrl is_test ++ "/payments") := by
  cases h : request.source.type <;> cases is_test <;>
    simp [adyenDispatch, checkoutDispatch, requestPrepare, adyenBaseUrl,
          checkoutBaseUrl, btProxyUrl, h]

/-- Witness for C3: the processor-token request goes direct, the Basis
Theory token request goes to the proxy endpoint. -/
theorem claim_C3_witness :
    ((adyenDispatch "k" true "bt" sampleRequest).1 = adyenBaseUrl true ++ "/payments"
      ∧ (checkoutDispatch "k" true "bt" sampleRequest).1 = checkoutBaseUrl true ++ "/payments")
    ∧ (adyenDispatch "k" true "bt" sampleBtRequest).1 = btProxyUrl
    ∧ (checkoutDispatch "k" true "bt" sampleBtRequest).1 = btProxyUrl :=
  ⟨(claim_C3 "k" true "bt" sampleRequest).2.2 rfl,
   (claim_C3 "k" true "bt" sampleBtRequest).1.mpr (by decide),
   (claim_C3 "k" true "bt" sampleBtRequest).2.1.mpr (by decide)⟩

/-- Claim C2 (code evaluation at the failing input).  On a bare 401 with no
`BT-PROXY-DESTINATION-STATUS` header, `RequestClient` classifies the failure
as proxy-origin and attaches a `BT_UNAUTHENTICATED` error response, and the
Checkout adapter returns it — but the `payment_orchestration_sdk` Adyen
adapter ignores the attached classification and returns the transport-status
mapping `(AUTHENTICATION_ERROR, INVALID_API_KEY)` instead. -/
theorem claim_C2_theorem :
    requestClientResult resp401 =
      .error { response := resp401, btErrorResponse := some (transformBtError resp401) }
    ∧ (transformBtError resp401).error_codes =
        [{ category := .BASIS_THEORY_ERROR, code := .BT_UNAUTHENTICATED }]
    ∧ adyenTransactionResult sampleRequest resp401 =
        .errorResponse
          { error_codes := [{ category := .AUTHENTICATION_ERROR, code := .INVALID_API_KEY }],
            provider_errors := .arr [.str ""], full_provider_response := .obj [] }
    ∧ checkoutTransactionResult sampleRequest resp401 =
        .errorResponse (transformBtError resp401) :=
  ⟨rfl, rfl, rfl, rfl⟩

/-- Claim C10 (amended: `response.ok` is `status < 400`, so the classification
fires for statuses in 400..599, not for every non-2xx status).  A direct
(`use_bt_proxy=False`) dispatch whose response has an error status and no
destination-status header raises an `HTTPError` carrying the proxy-origin
`bt_error_response` with a `BT_*` code, and `CheckoutClient.transaction`
returns exactly that error response. -/
theorem claim_C10 (r : HttpResponse) (request : TransactionRequest)
    (hh : r.destStatus = none) (h4 : 400 ≤ r.status) (h6 : r.status < 600) :
    requestClientResult r =
      .error { response := r, btErrorResponse := some (transformBtError r) }
    ∧ (∃ c, (transformBtError r).error_codes = [c]
        ∧ (c.code = ErrorType.BT_UNAUTHENTICATED ∨ c.code = ErrorType.BT_UNAUTHORIZED
           ∨ c.code = ErrorType.BT_REQUEST_ERROR ∨ c.code = ErrorType.BT_UNEXPECTED))
    ∧ checkoutTransactionResult request r = .errorResponse (transformBtError r) := by
  have hresp : responseIsError r = true := by
    simp [responseIsError]
    omega
  have hbt : isBtError r = true := by simp [isBtError, hh]
  have h1 : requestClientResult r =
      .error { response := r, btErrorResponse := some (transformBtError r) } := by
    simp [requestClientResult, hresp, hbt]
  refine ⟨h1, ?_, ?_⟩
  · by_cases e1 : r.status = 401
    · exact ⟨{ category := .BASIS_THEORY_ERROR, code := .BT_UNAUTHENTICATED },
        by simp [transformBtError, e1, ErrorType.category], by simp⟩
    · by_cases e2 : r.status = 403
      · exact ⟨{ category := .BASIS_THEORY_ERROR, code := .BT_UNAUTHORIZED },
          by simp [transformBtError, e1, e2, ErrorType.category], by simp⟩
      · by_cases e3 : r.status < 500
        · exact ⟨{ category := .BASIS_THEORY_ERROR, code := .BT_REQUEST_ERROR },
            by simp [transformBtError, e1, e2, e3, ErrorType.category], by simp⟩
        · exact ⟨{ category := .BASIS_THEORY_ERROR, code := .BT_UNEXPECTED },
            by simp [transformBtError, e1, e2, e3, ErrorType.category], by simp⟩
  · simp [checkoutTransactionResult, h1]

/-- Counterexample for C10 as stated: a 301 response is not 2xx and (being
unproxied) carries no destination-status header, yet `RequestClient.request`
raises nothing (`requests.Response.ok` is `status < 400`). -/
theorem claim_C10_counterexample :
    resp301.destStatus = none ∧ (resp301.status < 200 ∨ 300 ≤ resp301.status)
    ∧ requestClientResult resp301 = .ok resp301 :=
  ⟨rfl, Or.inr (by decide), rfl⟩

/-- Witness for C10: a direct 422 decline is classified proxy-origin and
returned as such by the Checkout adapter. -/
theorem claim_C10_witness :
    (resp422.destStatus = none ∧ 400 ≤ resp422.status ∧ resp422.status < 600)
    ∧ (requestClientResult resp422 =
        .error { response := resp422, btErrorResponse := some (transformBtError resp422) }
      ∧ (∃ c, (transformBtError resp422).error_codes = [c]
          ∧ (c.code = ErrorType.BT_UNAUTHENTICATED ∨ c.code = ErrorType.BT_UNAUTHORIZED
             ∨ c.code = ErrorType.BT_REQUEST_ERROR ∨ c.code = ErrorType.BT_UNEXPECTED))
      ∧ checkoutTransactionResult sampleRequest resp422 =
          .errorResponse (transformBtError resp422)) :=
  ⟨⟨rfl, by decide, by decide⟩,
   claim_C10 resp422 sampleRequest rfl (by decide) (by decide)⟩

/-- Claim C6 (code evaluation at the failing input).  A request whose
`ThreeDS` object has all four fields absent emits an *empty* 3DS block in
both adapters (`additionalData.threeDSecure = {}` for Adyen, `3ds = {}` for
Checkout); a request with only required fields emits no 3DS block; the newer
`orchestration_sdk` Adyen builder guards the block and emits nothing. -/
theorem claim_C6_theorem :
    lookupKey (adyenTransformPayload "merch" sampleRequest3DS) "additionalData"
      = some (.obj [("threeDSecure", .obj [])])
    ∧ lookupKey (checkoutTransformPayload "chan" sampleRequest3DS) "3ds" = some (.obj [])
    ∧ lookupKey (adyenTransformPayload "merch" sampleRequest) "additionalData" = none
    ∧ lookupKey (checkoutTransformPayload "chan" sampleRequest) "3ds" = none
    ∧ lookupKey (orchAdyenBasePayload "merch" sampleOrch3DS) "additionalData" = none :=
  ⟨rfl, rfl, rfl, rfl, rfl⟩

/-- Claim C8 (code evaluation at the failing inputs).  A raw dict missing
`amount.value` (or the source fields) never reaches the network in either
adapter — the result is the same for every oracle response `r` — and the
Checkout adapter raises `ValidationError` naming the missing field; but the
`payment_orchestration_sdk` Adyen adapter re-wraps its `ValidationError`
into a `ProcessingError` (its blanket `except Exception` handler swallows
the `ValidationError` raised by `_validate_required_fields`). -/
theorem claim_C8_theorem (r : HttpResponse) :
    adyenTransactionFromRaw [] r =
      .processingError "Error processing transaction: amount.value is required"
    ∧ checkoutTransactionFromRaw [] r = .validationError "amount.value is required"
    ∧ adyenTransactionFromRaw [("amount", .obj [("value", .int 1)])] r =
        .processingError "Error processing transaction: source.type and source.id are required"
    ∧ checkoutTransactionFromRaw [("amount", .obj [("value", .int 1)])] r =
        .validationError "source.type is required" :=
  ⟨rfl, rfl, rfl, rfl⟩

theorem adyenTransform_resultCode (rd : List (String × JValue)) (request : TransactionRequest)
    (s : TxResponse) (h : adyenTransformResponse rd request = .ok s) :
    lookupKey rd "resultCode" = some s.provider_code := by
  cases hq : lookupKey rd "resultCode" with
  | none =>
      unfold adyenTransformResponse at h
      simp only [bind, Except.bind, jdictIndex, jdictGetObj, hashableKey, hq] at h
      repeat' split at h
      all_goals simp_all
  | some v =>
      unfold adyenTransformResponse at h
      simp only [bind, Except.bind, jdictIndex, jdictGetObj, hashableKey, hq] at h
      repeat' split at h
      all_goals (cases h <;> rfl)

theorem claim_C9 (request : TransactionRequest) (r : HttpResponse)
    (rd : List (String × JValue)) (hb : r.body = some rd) :
    (responseIsError r = false →
     adyenIsErrorResult (lookupKey rd "resultCode") = true →
     isLeaf (jdictGet rd "refusalReasonCode" (.str "")) = true →
        ∃ e, adyenTransactionResult request r = .errorResponse e)
    ∧ (∀ s, adyenTransactionResult request r = .success s →
        adyenIsErrorResult (some s.provider_code) = false
        ∧ s.provider_code ≠ .str "Refused"
        ∧ s.provider_code ≠ .str "Error"
        ∧ s.provider_code ≠ .str "Cancelled") := by
  constructor
  · intro hok herr hleaf
    have hr : requestClientResult r = .ok r := by simp [requestClientResult, hok]
    cases hv : jdictGet rd "refusalReasonCode" (.str "") with
    | str sv =>
        exact ⟨{ error_codes := [{ category := (adyenMapRefusal sv).2,
                                   code := (adyenMapRefusal sv).1 }],
                 provider_errors := .arr [jdictGet rd "refusalReason" (.str "")],
                 full_provider_response := .obj rd },
               by simp [adyenTransactionResult, hr, hb, herr, hv, hashableKey]⟩
    | int n =>
        exact ⟨{ error_codes := [{ category := .OTHER, code := .OTHER }],
                 provider_errors := .arr [jdictGet rd "refusalReason" (.str "")],
                 full_provider_response := .obj rd },
               by simp [adyenTransactionResult, hr, hb, herr, hv, hashableKey]⟩
    | bool b =>
        exact ⟨{ error_codes := [{ category := .OTHER, code := .OTHER }],
                 provider_errors := .arr [jdictGet rd "refusalReason" (.str "")],
                 full_provider_response := .obj rd },
               by simp [adyenTransactionResult, hr, hb, herr, hv, hashableKey]⟩
    | null =>
        exact ⟨{ error_codes := [{ category := .OTHER, code := .OTHER }],
                 provider_errors := .arr [jdictGet rd "refusalReason" (.str "")],
                 full_provider_response := .obj rd },
               by simp [adyenTransactionResult, hr, hb, herr, hv, hashableKey]⟩
    | obj f => rw [hv] at hleaf; simp [isLeaf] at hleaf
    | arr e => rw [hv] at hleaf; simp [isLeaf] at hleaf
  · intro s hs
    by_cases hok : responseIsError r = true
    · have hr : requestClientResult r =
          .error { response := r,
                   btErrorResponse := if isBtError r then some (transformBtError r) else none } := by
        simp [requestClientResult, hok]
      simp only [adyenTransactionResult, hr, hb] at hs
      cases hs
    · simp only [Bool.not_eq_true] at hok
      have hr : requestClientResult r = .ok r := by simp [requestClientResult, hok]
      simp only [adyenTransactionResult, hr, hb] at hs
      by_cases herr : adyenIsErrorResult (lookupKey rd "resultCode") = true
      · simp only [herr, if_true] at hs
        split at hs <;> cases hs
      · simp only [Bool.not_eq_true] at herr
        simp only [herr, Bool.false_eq_true, if_false] at hs
        cases ht : adyenTransformResponse rd request with
        | ok s2 =>
            rw [ht] at hs
            have hseq : s2 = s := by cases hs; rfl
            subst hseq
            have hrc := adyenTransform_resultCode rd request s2 ht
            rw [hrc] at herr
            refine ⟨herr, ?_, ?_, ?_⟩
            · intro heq
              rw [heq] at herr
              simp [adyenIsErrorResult] at herr
            · intro heq
              rw [heq] at herr
              simp [adyenIsErrorResult] at herr
            · intro heq
              rw [heq] at herr
              simp [adyenIsErrorResult] at herr
        | error f =>
            rw [ht] at hs
            cases f <;> cases hs

/-- Witness for C9: a refused body yields an error response; an authorised
body yields a success whose provider code is outside the refused set. -/
theorem claim_C9_witness :
    (responseIsError adyenRefusedResponse = false
      ∧ adyenIsErrorResult (lookupKey adyenRefusedBody "resultCode") = true
      ∧ isLeaf (jdictGet adyenRefusedBody "refusalReasonCode" (.str "")) = true
      ∧ (∃ e, adyenTransactionResult sampleRequest adyenRefusedResponse = .errorResponse e))
    ∧ (∃ s, adyenTransactionResult sampleRequest adyenOkResponse = .success s
        ∧ adyenIsErrorResult (some s.provider_code) = false) := by
  constructor
  · refine ⟨rfl, rfl, rfl, ?_⟩
    exact (claim_C9 sampleRequest adyenRefusedResponse adyenRefusedBody rfl).1 rfl rfl rfl
  · refine ⟨{ id := .str "p1", reference := .str "r1", amount_value := .int 100,
              amount_currency := .str "USD",
              status_code := .AUTHORIZED, provider_code := .str "Authorised",
              source_type := .PROCESSOR_TOKEN, source_id := "tok_123",
              provisioned_id := none, network_transaction_id := .null,
              full_provider_response := adyenOkBody }, rfl, ?_⟩
    exact ((claim_C9 sampleRequest adyenOkResponse adyenOkBody rfl).2 _ rfl).1
